import Mathlib

/-!
# Verification of the sports-dashboard updater (`scripts/update_sports.py`)

A shallow embedding of the script's core logic: the entity normalizer, the
tiered EPL match classifier with its carry-over protocol, the timezone
converter, the fetch/dedup layer, and the snapshot assembly, together with
proofs settling the specification claims about them.

Modelling conventions:
* Python strings are Lean `String`s; string algorithms (`in`, `lower`,
  `replace`, `strip`) are re-implemented on `List Char`.  The script's data
  is ASCII, so the ASCII case-mapping of `lowerChar` coincides with Python's
  `str.lower` on every string that actually occurs.
* Python dicts with a fixed key set are Lean structures; dicts used as JSON
  documents are values of an inductive `Json` type.
* Network calls are oracle parameters: a function argument stands for the
  value the adapter returned (a failed HTTP call is the adapter's failure
  value, exactly as the `try/except` wrappers produce it).
* Python truthiness of optional values is modelled explicitly
  (`strTruthy`, `idTruthy`, empty-list / empty-string tests).
-/

/-- ASCII lower-casing, as Python's `str.lower` acts on ASCII text. -/
def lowerChar (c : Char) : Char :=
  if 'A' ≤ c ∧ c ≤ 'Z' then Char.ofNat (c.toNat + 32) else c

/-- Lower-case a string character-wise (`name.lower()`). -/
def lowerStr (s : String) : String :=
  String.mk (s.toList.map lowerChar)

/-- `needle` occurs as a contiguous sublist of `hay` (Python's `needle in hay`
on strings, on the character lists). -/
def isSubList (needle hay : List Char) : Bool :=
  match hay with
  | [] => needle.isEmpty
  | _ :: t => needle.isPrefixOf hay || isSubList needle t

/-- Python's substring test `needle in hay`. -/
def containsSub (hay needle : String) : Bool :=
  isSubList needle.toList hay.toList

/-- Whitespace characters removed by Python's `str.strip` (ASCII portion). -/
def isPyWs (c : Char) : Bool :=
  c = ' ' || c = '\t' || c = '\n' || c = '\r' || c = '\x0b' || c = '\x0c'

/-- Python's `str.strip()` on the character list. -/
def pyStrip (l : List Char) : List Char :=
  ((l.dropWhile isPyWs).reverse.dropWhile isPyWs).reverse

/-- Remove every (leftmost, non-overlapping) occurrence of `" FC"`, as
`name.replace(" FC", "")` does. -/
def removeFC (l : List Char) : List Char :=
  match l with
  | ' ' :: 'F' :: 'C' :: t => removeFC t
  | c :: t => c :: removeFC t
  | [] => []

-- =============================================================================
-- Fixed configuration tables (module-level constants of the script)
-- =============================================================================

/-- `BIG_6`: the hardcoded elite group. -/
def BIG_6 : List String :=
  ["Manchester City", "Manchester United", "Liverpool", "Arsenal", "Chelsea", "Tottenham"]

/-- `BIG_6_ALIASES`: the alias table, in the dict's insertion order. -/
def BIG_6_ALIASES : List (String × String) :=
  [("Man City", "Manchester City"),
   ("Manchester City FC", "Manchester City"),
   ("Man Utd", "Manchester United"),
   ("Manchester United FC", "Manchester United"),
   ("Liverpool FC", "Liverpool"),
   ("Arsenal FC", "Arsenal"),
   ("Chelsea FC", "Chelsea"),
   ("Spurs", "Tottenham"),
   ("Tottenham Hotspur", "Tottenham"),
   ("Tottenham Hotspur FC", "Tottenham")]

/-- `TIER_PRIORITY`: rule name to tier number. -/
def TIER_PRIORITY : List (String × Nat) :=
  [("Big Match", 1), ("Top Tier", 2), ("Challenger", 3),
   ("Prime Time", 4), ("Early KO", 5), ("Leader", 6)]

/-- `MAX_EPL_MATCHES`. -/
def MAX_EPL_MATCHES : Nat := 3

-- =============================================================================
-- Entity normalizer (`normalize_team_name`, `is_big_6`)
-- =============================================================================

/-- First alias whose lower-cased name occurs inside the lower-cased input
(the `for alias, standard in BIG_6_ALIASES.items()` loop). -/
def aliasSubMatch (name : String) : Option String :=
  (BIG_6_ALIASES.find? (fun p => containsSub (lowerStr name) (lowerStr p.1))).map (·.2)

/-- `normalize_team_name`: exact alias hit, else substring alias hit, else
strip the `" FC"` suffix text and surrounding whitespace. -/
def normalize_team_name (name : String) : String :=
  match BIG_6_ALIASES.lookup name with
  | some std => std
  | none =>
    match aliasSubMatch name with
    | some std => std
    | none => String.mk (pyStrip (removeFC name.toList))

/-- `is_big_6`: normalize, then case-insensitive containment in either
direction against each canonical Big-6 name. -/
def is_big_6 (team_name : String) : Bool :=
  let norm := normalize_team_name team_name
  BIG_6.any (fun b6 =>
    containsSub (lowerStr norm) (lowerStr b6) || containsSub (lowerStr b6) (lowerStr norm))

example : normalize_team_name "Man City" = "Manchester City" := by decide
example : normalize_team_name "Sp FCurs" = "Spurs" := by decide
example : normalize_team_name "Spurs" = "Tottenham" := by decide
example : is_big_6 "Arsenal" = true := by decide
example : is_big_6 "Newcastle United" = false := by decide

-- =============================================================================
-- Calendar arithmetic (the parts of `datetime`/`zoneinfo` the script uses)
-- =============================================================================

/-- Gregorian leap year. -/
def isLeap (y : Nat) : Bool :=
  (y % 4 = 0 && y % 100 ≠ 0) || y % 400 = 0

/-- Length of a month. -/
def daysInMonth (y m : Nat) : Nat :=
  if m = 2 then (if isLeap y then 29 else 28)
  else if m = 4 ∨ m = 6 ∨ m = 9 ∨ m = 11 then 30 else 31

/-- Days from 0000-03-01 (the March-based era origin) to the given civil date
(`y ≥ 1`, `1 ≤ m ≤ 12`); the standard days-from-civil computation. -/
def daysFromCivil (y m d : Nat) : Nat :=
  let y' := if m ≤ 2 then y - 1 else y
  let era := y' / 400
  let yoe := y' % 400
  let mp := (m + 9) % 12
  let doy := (153 * mp + 2) / 5 + d - 1
  let doe := yoe * 365 + yoe / 4 - yoe / 100 + doy
  era * 146097 + doe

/-- Inverse of `daysFromCivil`: civil `(year, month, day)` of a day count. -/
def civilFromDays (days : Nat) : Nat × Nat × Nat :=
  let era := days / 146097
  let doe := days % 146097
  let yoe := ((doe - doe / 1460) + doe / 36524 - doe / 146096) / 365
  let y' := yoe + era * 400
  let doy := doe - (365 * yoe + yoe / 4 - yoe / 100)
  let mp := (5 * doy + 2) / 153
  let d := doy - (153 * mp + 2) / 5 + 1
  let m := if mp < 10 then mp + 3 else mp - 9
  (if m ≤ 2 then y' + 1 else y', m, d)

/-- Day of week of a day count, `0 = Sunday` (0000-03-01 was a Wednesday). -/
def dowSun0 (days : Nat) : Nat := (days + 3) % 7

/-- `%A`: full weekday name from a Sunday-based index. -/
def dayName (w : Nat) : String :=
  match w with
  | 0 => "Sunday" | 1 => "Monday" | 2 => "Tuesday" | 3 => "Wednesday"
  | 4 => "Thursday" | 5 => "Friday" | 6 => "Saturday" | _ => ""

/-- Zero-padded two-digit rendering, as `%m`/`%d`/`%H`/`%M` produce. -/
def pad2 (n : Nat) : String :=
  if n < 10 then "0" ++ toString n else toString n

/-- Day of month of the last Sunday of a 31-day month. -/
def lastSundayDom (y m : Nat) : Nat :=
  31 - dowSun0 (daysFromCivil y m 31)

/-- British Summer Time is in force at a UTC instant (seconds since the era):
from 01:00 UTC on the last Sunday of March to 01:00 UTC on the last Sunday of
October, the rule `ZoneInfo("Europe/London")` applies in the modern era. -/
def isBST (utcSec : Nat) : Bool :=
  let y := (civilFromDays (utcSec / 86400)).1
  let start := daysFromCivil y 3 (lastSundayDom y 3) * 86400 + 3600
  let stop := daysFromCivil y 10 (lastSundayDom y 10) * 86400 + 3600
  decide (start ≤ utcSec ∧ utcSec < stop)

-- =============================================================================
-- Timezone converter (`convert_utc_to_kst`)
-- =============================================================================

/-- The fields `convert_utc_to_kst` returns.  `datetime_kst` holds the
instant in seconds since the era: Python's aware `datetime` objects compare
by instant, which is all the classifier uses the field for. -/
structure TimeInfo where
  kst_date : String
  kst_time : String
  kst_full : String
  uk_time : String
  uk_day : String
  uk_date : String
  datetime_kst : Nat
  deriving DecidableEq, Repr

/-- One decimal digit. -/
def digit? (c : Char) : Option Nat :=
  if c.isDigit then some (c.toNat - 48) else none

def d2 (a b : Char) : Option Nat := do
  let x ← digit? a; let y ← digit? b; pure (10 * x + y)

def d4 (a b c d : Char) : Option Nat := do
  let x ← d2 a b; let y ← d2 c d; pure (100 * x + y)

/-- Python's `datetime.fromisoformat` on the timestamp shape the fixtures
provider emits, `YYYY-MM-DDTHH:MM:SS±hh:mm` (after the script's
`replace('Z', '+00:00')`).  Result: `(localSeconds, offsetMinutes)` with the
local wall-clock seconds counted from the era.  Any other shape is
unparseable here and yields `none`, standing for the `ValueError` branch. -/
def parseIsoAware (cs : List Char) : Option (Nat × Int) :=
  match cs with
  | [y1, y2, y3, y4, '-', m1, m2, '-', dd1, dd2, 'T',
     h1, h2, ':', n1, n2, ':', s1, s2, sgn, o1, o2, ':', o3, o4] => do
    let yr ← d4 y1 y2 y3 y4
    let mo ← d2 m1 m2
    let dy ← d2 dd1 dd2
    let hh ← d2 h1 h2
    let mi ← d2 n1 n2
    let ss ← d2 s1 s2
    let oh ← d2 o1 o2
    let om ← d2 o3 o4
    if 1 ≤ yr ∧ 1 ≤ mo ∧ mo ≤ 12 ∧ 1 ≤ dy ∧ dy ≤ daysInMonth yr mo ∧
       hh < 24 ∧ mi < 60 ∧ ss < 60 ∧ om < 60 then
      let off : Int := (oh * 60 + om : Nat)
      let off ← match sgn with
        | '+' => some off
        | '-' => some (-off)
        | _ => none
      pure (daysFromCivil yr mo dy * 86400 + hh * 3600 + mi * 60 + ss, off)
    else none
  | _ => none

/-- `'Z'` replaced by `'+00:00'` (Python `replace` acts on every occurrence). -/
def replaceZ (cs : List Char) : List Char :=
  match cs with
  | [] => []
  | 'Z' :: t => '+' :: '0' :: '0' :: ':' :: '0' :: '0' :: replaceZ t
  | c :: t => c :: replaceZ t

/-- `convert_utc_to_kst`: parse the ISO timestamp, convert to KST (UTC+9,
no DST) and UK time (UTC, +1h under BST), and render the strftime fields.
The bare `except` of the source makes the function total with `None` for
every unparseable input, which `none` models. -/
def convert_utc_to_kst (utc_datetime_str : String) : Option TimeInfo :=
  match parseIsoAware (replaceZ utc_datetime_str.toList) with
  | none => none
  | some (localSec, off) =>
    let utcSec := (Int.ofNat localSec - off * 60).toNat
    let kstSec := utcSec + 9 * 3600
    let ukSec := utcSec + (if isBST utcSec then 3600 else 0)
    let kd := civilFromDays (kstSec / 86400)
    let kh := kstSec % 86400 / 3600
    let km := kstSec % 3600 / 60
    let ud := civilFromDays (ukSec / 86400)
    let uh := ukSec % 86400 / 3600
    let um := ukSec % 3600 / 60
    some {
      kst_date := pad2 kd.2.1 ++ "." ++ pad2 kd.2.2,
      kst_time := pad2 kh ++ ":" ++ pad2 km,
      kst_full := pad2 kd.2.1 ++ "." ++ pad2 kd.2.2 ++ " " ++ pad2 kh ++ ":" ++ pad2 km ++ " (KST)",
      uk_time := pad2 uh ++ ":" ++ pad2 um,
      uk_day := dayName (dowSun0 (ukSec / 86400)),
      uk_date := pad2 ud.2.1 ++ "." ++ pad2 ud.2.2,
      datetime_kst := utcSec }

example :
    (convert_utc_to_kst "2026-01-17T15:00:00Z").map
      (fun t => (t.kst_full, t.uk_day, t.uk_time, t.uk_date)) =
    some ("01.18 00:00 (KST)", "Saturday", "15:00", "01.17") := by decide

example :
    (convert_utc_to_kst "2026-07-05T15:30:00Z").map
      (fun t => (t.kst_time, t.kst_date, t.uk_day, t.uk_time)) =
    some ("00:30", "07.06", "Sunday", "16:30") := by decide

example : convert_utc_to_kst "kickoff at noon" = none := by decide

-- =============================================================================
-- Rule checker (`check_epl_rules`, `get_best_tier`)
-- =============================================================================

/-- `check_epl_rules`: the six tier rules, appended in tier order. -/
def check_epl_rules (home away uk_day uk_time : String)
    (top_4 : List String) (leader : String) : List String :=
  let home_norm := normalize_team_name home
  let away_norm := normalize_team_name away
  let home_is_big6 := is_big_6 home_norm
  let away_is_big6 := is_big_6 away_norm
  let home_is_top4 := top_4.contains home_norm
  let away_is_top4 := top_4.contains away_norm
  let leader_norm := if leader ≠ "" then normalize_team_name leader else ""
  (if home_is_big6 && away_is_big6 then ["Big Match"] else []) ++
  (if home_is_top4 && away_is_top4 then ["Top Tier"] else []) ++
  (if (home_is_top4 && !home_is_big6 && away_is_big6) ||
      (away_is_top4 && !away_is_big6 && home_is_big6) then ["Challenger"] else []) ++
  (if uk_day == "Sunday" && uk_time == "16:30" then ["Prime Time"] else []) ++
  (if uk_day == "Saturday" && uk_time == "12:30" then ["Early KO"] else []) ++
  (if leader_norm ≠ "" &&
      (containsSub home_norm leader_norm || containsSub leader_norm home_norm ||
       containsSub away_norm leader_norm || containsSub leader_norm away_norm)
   then ["Leader"] else [])

/-- `TIER_PRIORITY.get(r, 99)`. -/
def tier_of (r : String) : Nat :=
  (TIER_PRIORITY.lookup r).getD 99

/-- `get_best_tier`: 99 on no rules, else the minimum looked-up tier. -/
def get_best_tier (rules : List String) : Nat :=
  match rules with
  | [] => 99
  | r :: rs => (rs.map tier_of).foldl Nat.min (tier_of r)

example : check_epl_rules "Arsenal" "Chelsea" "Monday" "20:00" [] "" = ["Big Match"] := by decide
example : check_epl_rules "Alpha Town" "Beta Rovers" "Sunday" "16:30" [] "" = ["Prime Time"] := by decide
example : get_best_tier ["Top Tier", "Leader"] = 2 := by decide

-- =============================================================================
-- Data model of the fetched matches and the selected batch
-- =============================================================================

/-- The fields of one match object from the fixtures API that the script
reads (`id`, `status`, `homeTeam.name`, `awayTeam.name`, `utcDate`,
`matchday`, `score.fullTime.home/away`).  The score fields model the value
after the `.get(..., 0)` defaulting. -/
structure ApiMatch where
  id : Option Nat
  status : String
  homeName : String
  awayName : String
  utcDate : String
  matchday : Nat
  scoreHome : Nat
  scoreAway : Nat
  deriving DecidableEq, Repr

/-- One member of the selected batch: the dict built by
`process_epl_matches` (after `datetime_kst` is deleted), which is also the
shape of the members of a previously persisted batch.  `local_tv` models the
`'local'` key (broadcast channel); `local` itself is a Lean keyword. -/
structure SelMatch where
  match_id : Option Nat
  home : String
  away : String
  kst_time : String
  uk_time : String
  local_tv : String
  rules : List String
  rule_str : String
  matchday : Nat
  status : String
  score : String
  deriving DecidableEq, Repr

/-- A validated entry before the `del m['datetime_kst']` step: a `SelMatch`
plus the kickoff instant used as the secondary sort key. -/
structure VMatch where
  sel : SelMatch
  datetime_kst : Nat
  deriving DecidableEq, Repr

/-- The `epl` section of the previous `sports.json`, as far as
`process_epl_matches` reads it (`selected_matches`, `selected_round`). -/
structure EplPrev where
  selected_matches : List SelMatch
  selected_round : Option Nat
  deriving DecidableEq, Repr

/-- Python truthiness of an optional string (`if api_key:`). -/
def strTruthy (s : Option String) : Bool :=
  match s with
  | some v => v ≠ ""
  | none => false

/-- Python truthiness of an optional integer id (`if match_id:`). -/
def idTruthy (i : Option Nat) : Bool :=
  match i with
  | some n => n ≠ 0
  | none => false

/-- Python `x or ''` for an optional string. -/
def pyOrEmpty (s : Option String) : String := s.getD ""

-- =============================================================================
-- Carry-over protocol (`process_epl_matches`, first half)
-- =============================================================================

/-- `current_matches_by_id.get(match_id)`: the dict maps each truthy id to
the *last* match carrying it, so lookup finds the last such match. -/
def find_current (ms : List ApiMatch) (oid : Option Nat) : Option ApiMatch :=
  match oid with
  | some i =>
    if i = 0 then none
    else (ms.filter (fun m => m.id == some i)).getLast?
  | none => none

/-- Refresh one previously selected member: when found in the fresh data,
overwrite only `status` and `score` (score shown for FINISHED/IN_PLAY,
otherwise `"-"`); when not found, keep the stored member unchanged. -/
def refresh_member (ms : List ApiMatch) (sel : SelMatch) : SelMatch :=
  match find_current ms sel.match_id with
  | some cur =>
    let status := cur.status
    let score :=
      if status == "FINISHED" || status == "IN_PLAY"
      then toString cur.scoreHome ++ "-" ++ toString cur.scoreAway
      else "-"
    { sel with status := status, score := score }
  | none => sel

/-- The member's contribution to `all_finished`: its fresh status when
found, its stored status when not. -/
def member_finished (ms : List ApiMatch) (sel : SelMatch) : Bool :=
  match find_current ms sel.match_id with
  | some cur => cur.status == "FINISHED"
  | none => sel.status == "FINISHED"

/-- The status a member carries after the refresh pass. -/
def refreshed_status (ms : List ApiMatch) (sel : SelMatch) : String :=
  match find_current ms sel.match_id with
  | some cur => cur.status
  | none => sel.status

-- =============================================================================
-- Fresh selection (`process_epl_matches`, second half)
-- =============================================================================

/-- `', '.join(rules)`. -/
def joinComma (l : List String) : String :=
  match l with
  | [] => ""
  | [s] => s
  | s :: t => s ++ ", " ++ joinComma t

/-- The tier evaluation and entry construction for one match whose
timestamp already converted: compute the matched rules, drop the match when
none matched, otherwise populate the validated dict exactly as the loop
appends it.  `search` is the `search_epl_broadcaster` oracle
(home, away, uk_date), consulted only when the Serper key is truthy. -/
def entry_of (top_4 : List String) (leader : String)
    (serper_key : Option String) (search : String → String → String → Option String)
    (m : ApiMatch) (ti : TimeInfo) : Option VMatch :=
  let rules := check_epl_rules m.homeName m.awayName ti.uk_day ti.uk_time top_4 leader
  if rules.isEmpty then none
  else
    let home_norm := normalize_team_name m.homeName
    let away_norm := normalize_team_name m.awayName
    let channel := if strTruthy serper_key then search home_norm away_norm ti.uk_date else none
    some {
      sel := {
        match_id := m.id,
        home := home_norm,
        away := away_norm,
        kst_time := ti.kst_full,
        uk_time := ti.uk_day ++ " " ++ ti.uk_time ++ " (UK)",
        local_tv := pyOrEmpty channel,
        rules := rules,
        rule_str := joinComma rules,
        matchday := m.matchday,
        status := "SCHEDULED",
        score := "-" },
      datetime_kst := ti.datetime_kst }

/-- The body of the fresh-selection loop for one fetched match: skip
FINISHED matches, matches with a missing name or date, and matches whose
timestamp does not convert; then evaluate the rules via `entry_of`. -/
def build_entry (top_4 : List String) (leader : String)
    (serper_key : Option String) (search : String → String → String → Option String)
    (m : ApiMatch) : Option VMatch :=
  if m.status == "FINISHED" then none
  else if m.homeName == "" || m.awayName == "" || m.utcDate == "" then none
  else
    match convert_utc_to_kst m.utcDate with
    | none => none
    | some ti => entry_of top_4 leader serper_key search m ti

/-- `validated_matches` accumulated by the fresh-selection loop. -/
def validated_matches (ms : List ApiMatch) (top_4 : List String) (leader : String)
    (serper_key : Option String) (search : String → String → String → Option String) :
    List VMatch :=
  ms.filterMap (build_entry top_4 leader serper_key search)

/-- Strict comparison on the sort key `(get_best_tier(rules), datetime_kst)`. -/
def vLt (a b : VMatch) : Bool :=
  decide (get_best_tier a.sel.rules < get_best_tier b.sel.rules ∨
    (get_best_tier a.sel.rules = get_best_tier b.sel.rules ∧ a.datetime_kst < b.datetime_kst))

/-- Insert `x` before the first element not strictly below it.  Equal-key
elements keep their original relative order, so `stableSort` below agrees
with Python's stable `list.sort(key=...)`. -/
def insertSorted (lt : α → α → Bool) (x : α) : List α → List α
  | [] => [x]
  | y :: ys => if lt y x then y :: insertSorted lt x ys else x :: y :: ys

/-- Stable insertion sort: the unique stable ascending reordering, hence the
same list `list.sort` produces for a strict-weak-order key comparison. -/
def stableSort (lt : α → α → Bool) : List α → List α
  | [] => []
  | x :: xs => insertSorted lt x (stableSort lt xs)

/-- Steps 3–5 of the fresh path: sort by (best tier, kickoff), take the top
`MAX_EPL_MATCHES`, drop the `datetime_kst` field, and report the round of
the first selected match together with the `True` new-selection flag. -/
def fresh_selection (ms : List ApiMatch) (top_4 : List String) (leader : String)
    (serper_key : Option String) (search : String → String → String → Option String) :
    List SelMatch × Option Nat × Bool :=
  let validated := validated_matches ms top_4 leader serper_key search
  if validated.isEmpty then ([], none, true)
  else
    let selected := ((stableSort vLt validated).take MAX_EPL_MATCHES).map (·.sel)
    let selected_round := match selected with
      | [] => none
      | s :: _ => some s.matchday
    (selected, selected_round, true)

/-- `process_epl_matches`: carry the previous batch over (refreshing only
status/score) while it has a live member and a usable id, otherwise run a
fresh selection.  Returns `(batch, selected_round, is_new_selection)`. -/
def process_epl_matches (ms : List ApiMatch) (top_4 : List String) (leader : String)
    (serper_key : Option String) (search : String → String → String → Option String)
    (existing : Option EplPrev) : List SelMatch × Option Nat × Bool :=
  let existing_selected := match existing with
    | some e => e.selected_matches
    | none => []
  let existing_round := match existing with
    | some e => e.selected_round
    | none => none
  if !existing_selected.isEmpty && existing_selected.any (fun m => idTruthy m.match_id) then
    let updated := existing_selected.map (refresh_member ms)
    let all_finished := existing_selected.all (member_finished ms)
    if !all_finished then (updated, existing_round, false)
    else fresh_selection ms top_4 leader serper_key search
  else fresh_selection ms top_4 leader serper_key search

-- =============================================================================
-- Fetch layer (`get_epl_matches`)
-- =============================================================================

/-- The matchday-scoped fetch: performed only when the matchday is truthy;
`fetchMd d` is the (possibly empty) list the request produced, with a failed
request modelled by the empty list it leaves behind. -/
def matchday_fetch (md : Option Nat) (fetchMd : Nat → List ApiMatch) : List ApiMatch :=
  match md with
  | some d => if d ≠ 0 then fetchMd d else []
  | none => []

/-- Deduplication by id: keep the first occurrence of each truthy id and
drop every match whose id is falsy. -/
def dedup_by_id (l : List ApiMatch) : List ApiMatch :=
  go [] l
where
  go (seen : List Nat) : List ApiMatch → List ApiMatch
    | [] => []
    | m :: t =>
      match m.id with
      | some i => if i ≠ 0 && !seen.contains i then m :: go (i :: seen) t else go seen t
      | none => go seen t

/-- `get_epl_matches`: current-round query, falling back to the 7-day
window query (`fetchWin`) when that produced nothing, then dedup. -/
def get_epl_matches (md : Option Nat) (fetchMd : Nat → List ApiMatch)
    (fetchWin : List ApiMatch) : List ApiMatch :=
  let a := matchday_fetch md fetchMd
  dedup_by_id (if a.isEmpty then fetchWin else a)

-- =============================================================================
-- Snapshot document model
-- =============================================================================

/-- JSON values, as `json.dump` serializes the assembled dict. -/
inductive Json where
  | null
  | str (s : String)
  | num (n : Nat)
  | arr (xs : List Json)
  | obj (kvs : List (String × Json))

/-- Key lookup in an object (first hit, as in a dict with unique keys). -/
def json_get (j : Json) (k : String) : Option Json :=
  match j with
  | .obj kvs => (kvs.find? (fun p => p.1 == k)).map (·.2)
  | _ => none

/-- Two-level key lookup. -/
def json_get2 (j : Json) (k1 k2 : String) : Option Json :=
  (json_get j k1).bind (fun x => json_get x k2)

/-- The key list of an object. -/
def objKeys (j : Json) : List String :=
  match j with
  | .obj kvs => kvs.map (·.1)
  | _ => []

/-- `None`/number rendering of an optional integer field. -/
def optNatJson (o : Option Nat) : Json :=
  match o with
  | some n => .num n
  | none => .null

/-- One selected match as serialized (insertion order of the dict literal,
after `datetime_kst` was deleted). -/
def selToJson (m : SelMatch) : Json :=
  .obj [("match_id", optNatJson m.match_id),
        ("home", .str m.home),
        ("away", .str m.away),
        ("kst_time", .str m.kst_time),
        ("uk_time", .str m.uk_time),
        ("local", .str m.local_tv),
        ("rules", .arr (m.rules.map .str)),
        ("rule_str", .str m.rule_str),
        ("matchday", .num m.matchday),
        ("status", .str m.status),
        ("score", .str m.score)]

/-- `last` sub-record of the NBA section. -/
structure NbaLast where
  opp : String
  result : String
  score : String
  deriving DecidableEq, Repr

/-- One NBA schedule entry. -/
structure NbaGame where
  opp : String
  date : String
  kst_time : String
  local_time : String
  location : String
  venue : String
  channel : String
  deriving DecidableEq, Repr

/-- The NBA section: `get_nba_warriors_data` always builds this full key
set (it starts from the defaulted dict and only overwrites values). -/
structure NbaData where
  record : String
  rank : String
  last : NbaLast
  schedule : List NbaGame
  deriving DecidableEq, Repr

/-- `get_nba_default_data`. -/
def get_nba_default_data : NbaData :=
  { record := "-", rank := "-",
    last := { opp := "-", result := "-", score := "-" },
    schedule := [] }

def nbaGameJson (g : NbaGame) : Json :=
  .obj [("opp", .str g.opp), ("date", .str g.date), ("kst_time", .str g.kst_time),
        ("local_time", .str g.local_time), ("location", .str g.location),
        ("venue", .str g.venue), ("channel", .str g.channel)]

def nbaJson (n : NbaData) : Json :=
  .obj [("record", .str n.record), ("rank", .str n.rank),
        ("last", .obj [("opp", .str n.last.opp), ("result", .str n.last.result),
                       ("score", .str n.last.score)]),
        ("schedule", .arr (n.schedule.map nbaGameJson))]

/-- The F1 section (`search_f1_schedule` always returns this key set). -/
structure F1Data where
  status : String
  name : String
  circuit : String
  date : String
  deriving DecidableEq, Repr

/-- The hardcoded F1 value used when the Serper key is absent. -/
def f1_no_serper_fallback : F1Data :=
  { status := "Off-Season", name := "Australian Grand Prix",
    circuit := "Albert Park, Melbourne", date := "Mar 2026" }

def f1Json (f : F1Data) : Json :=
  .obj [("status", .str f.status), ("name", .str f.name),
        ("circuit", .str f.circuit), ("date", .str f.date)]

/-- `recent` sub-record of the tennis section. -/
structure TennisRecent where
  event : String
  opponent : String
  result : String
  score : String
  date : String
  deriving DecidableEq, Repr

/-- `next` sub-record of the tennis section. -/
structure TennisNext where
  event : String
  detail : String
  match_time : String
  tournament_dates : String
  status : String
  deriving DecidableEq, Repr

/-- The tennis section (`search_tennis_schedule` always returns this key set). -/
structure TennisData where
  recent : TennisRecent
  next : TennisNext
  deriving DecidableEq, Repr

/-- The `default_data` record of `search_tennis_schedule`, returned whenever
the Serper key is falsy. -/
def tennis_default_data : TennisData :=
  { recent := { event := "-", opponent := "-", result := "-", score := "-", date := "-" },
    next := { event := "-", detail := "-", match_time := "TBD",
              tournament_dates := "", status := "-" } }

def tennisJson (t : TennisData) : Json :=
  .obj [("recent", .obj [("event", .str t.recent.event), ("opponent", .str t.recent.opponent),
                         ("result", .str t.recent.result), ("score", .str t.recent.score),
                         ("date", .str t.recent.date)]),
        ("next", .obj [("event", .str t.next.event), ("detail", .str t.next.detail),
                       ("match_time", .str t.next.match_time),
                       ("tournament_dates", .str t.next.tournament_dates),
                       ("status", .str t.next.status)])]

/-- Python's `f"R{x}"` on a possibly-`None` value. -/
def pyShowOptNat (o : Option Nat) : String :=
  match o with
  | some n => toString n
  | none => "None"

/-- The `epl` section of the snapshot (lines building `sports_data['epl']`;
`matches` and `selected_matches` serialize the same list). -/
def eplJson (md selRound : Option Nat) (display leader : String)
    (top4 : List String) (sel : List SelMatch) : Json :=
  .obj [("matchday", optNatJson md),
        ("selected_round", optNatJson selRound),
        ("display_matchday", .str display),
        ("leader", .str leader),
        ("top4", .arr (top4.map .str)),
        ("matches", .arr (sel.map selToJson)),
        ("selected_matches", .arr (sel.map selToJson))]

/-- The whole `sports_data` document. -/
def assemble (updated : String) (epl nba f1 tennis : Json) : Json :=
  .obj [("updated", .str updated), ("epl", epl), ("nba", nba),
        ("f1", f1), ("tennis", tennis)]

-- =============================================================================
-- Serper adapter and the run (`call_serper_api`, `update_sports_data`)
-- =============================================================================

/-- The transport outcome of one HTTP POST: a status code with a parsed
body, or a raised exception. -/
inductive HttpOutcome (α : Type) where
  | ok (status : Nat) (body : α)
  | exn

/-- `call_serper_api`: falsy key short-circuits; only a 200 response yields
a body; every other status and every exception falls through to `None`.
No response — a 429 rate-limit included — receives special treatment. -/
def call_serper_api (api_key : Option String) (resp : HttpOutcome α) : Option α :=
  if !strTruthy api_key then none
  else
    match resp with
    | .ok 200 body => some body
    | .ok _ _ => none
    | .exn => none

/-- `get_epl_standings`' successful payload: `(leader, top_4, matchday)`
after normalization; the request/shape failures all collapse to the
`(None, None, None)` return, modelled by `none`. -/
structure StandingsRes where
  leader : String
  top4 : List String
  matchday : Nat
  deriving DecidableEq, Repr

/-- Everything one invocation of `update_sports_data` consumes: the three
environment keys and, for each upstream adapter, the value it returned
(collaborators specified by contract; their internals are out of the core).
`nbaApi`, `f1Api`, `tennisApi` are the values `get_nba_warriors_data`,
`search_f1_schedule` and `search_tennis_schedule` produce when their keys
are truthy — each always produces its full key set. -/
structure RunIn where
  football_key : Option String
  serper_key : Option String
  balldontlie_key : Option String
  now_str : String
  standings : Option StandingsRes
  fetchMd : Nat → List ApiMatch
  fetchWin : List ApiMatch
  search : String → String → String → Option String
  nbaApi : NbaData
  f1Api : F1Data
  tennisApi : TennisData
  existing : Option EplPrev

/-- The fallback standings used when the standings source yields nothing
usable (`leader_team`/`top_4_teams` falsy). -/
def fallback_top4 : List String := ["Arsenal", "Manchester City", "Liverpool", "Chelsea"]

/-- `update_sports_data`: raise on a missing football key; otherwise fetch,
classify, fill each optional domain (or its fallback), assemble, and write.
`.ok` is the snapshot written at the end of the run, `.error` the raised
exception that ends the run with nothing written. -/
def update_sports_data (I : RunIn) : Except String Json :=
  if !strTruthy I.football_key then .error "FOOTBALL_DATA_API_KEY Missing"
  else
    let std := match I.standings with
      | some s => if s.leader ≠ "" ∧ s.top4 ≠ [] then (s.leader, s.top4, some s.matchday)
                  else ("Arsenal", fallback_top4, none)
      | none => ("Arsenal", fallback_top4, none)
    let leader := std.1
    let top4 := std.2.1
    let md := std.2.2
    let ms := get_epl_matches md I.fetchMd I.fetchWin
    let res := process_epl_matches ms top4 leader I.serper_key I.search I.existing
    let sel := res.1
    let selRound := res.2.1
    let nba := if strTruthy I.balldontlie_key then I.nbaApi else get_nba_default_data
    let f1 := if strTruthy I.serper_key then I.f1Api else f1_no_serper_fallback
    let tennis := if strTruthy I.serper_key then I.tennisApi else tennis_default_data
    let display := match selRound with
      | some r => if r ≠ 0 then "R" ++ toString r else "R" ++ pyShowOptNat md
      | none => "R" ++ pyShowOptNat md
    .ok (assemble I.now_str (eplJson md selRound display leader top4 sel)
          (nbaJson nba) (f1Json f1) (tennisJson tennis))

-- =============================================================================
-- Spec-side description of fresh selection (for the refinement claim)
-- =============================================================================

/-- The candidate pool as §4.1's selection algorithm describes it: filter
out Finished fixtures, evaluate every survivor's matched-tier set, drop the
ones with an empty set.  (Unlike the source loop, no validity screening of
names or timestamps appears here — the spec's Fixtures always carry them.) -/
def spec_selection_pool (ms : List ApiMatch) (top_4 : List String) (leader : String)
    (serper_key : Option String) (search : String → String → String → Option String) :
    List VMatch :=
  (ms.filter (fun m => !(m.status == "FINISHED"))).filterMap
    (fun m => (convert_utc_to_kst m.utcDate).bind (entry_of top_4 leader serper_key search m))

/-- Steps 3–4 of §4.1: sort the survivors by (best tier, kickoff) and take
the first `K = MAX_EPL_MATCHES`. -/
def spec_selection (ms : List ApiMatch) (top_4 : List String) (leader : String)
    (serper_key : Option String) (search : String → String → String → Option String) :
    List SelMatch :=
  ((stableSort vLt (spec_selection_pool ms top_4 leader serper_key search)).take
    MAX_EPL_MATCHES).map (·.sel)

-- =============================================================================
-- Sorting infrastructure lemmas
-- =============================================================================

theorem insertSorted_perm (lt : α → α → Bool) (x : α) (l : List α) :
    List.Perm (insertSorted lt x l) (x :: l) := by
  induction l with
  | nil => simp [insertSorted]
  | cons y ys ih =>
    by_cases h : lt y x = true
    · simp only [insertSorted, h, if_true]
      exact (ih.cons y).trans (List.Perm.swap x y ys)
    · simp [insertSorted, h]

theorem stableSort_perm (lt : α → α → Bool) (l : List α) :
    List.Perm (stableSort lt l) l := by
  induction l with
  | nil => simp [stableSort]
  | cons x xs ih =>
    exact (insertSorted_perm lt x (stableSort lt xs)).trans (ih.cons x)

theorem pairwise_insertSorted (lt : α → α → Bool)
    (hasym : ∀ a b, lt a b = true → lt b a = false)
    (hneg : ∀ a b c, lt b a = false → lt c b = false → lt c a = false)
    (x : α) (l : List α) :
    l.Pairwise (fun a b => lt b a = false) →
      (insertSorted lt x l).Pairwise (fun a b => lt b a = false) := by
  induction l with
  | nil => intro _; simp [insertSorted]
  | cons y ys ih =>
    intro h
    rcases List.pairwise_cons.mp h with ⟨hy, hys⟩
    cases hlt : lt y x with
    | true =>
      simp only [insertSorted, hlt, if_true]
      refine List.pairwise_cons.mpr ⟨?_, ih hys⟩
      intro z hz
      rcases List.mem_cons.mp ((insertSorted_perm lt x ys).mem_iff.mp hz) with rfl | hz'
      · exact hasym _ _ hlt
      · exact hy z hz'
    | false =>
      simp only [insertSorted, hlt, if_false, Bool.false_eq_true]
      refine List.pairwise_cons.mpr ⟨?_, h⟩
      intro z hz
      rcases List.mem_cons.mp hz with rfl | hz'
      · exact hlt
      · exact hneg x y z hlt (hy z hz')

theorem pairwise_stableSort (lt : α → α → Bool)
    (hasym : ∀ a b, lt a b = true → lt b a = false)
    (hneg : ∀ a b c, lt b a = false → lt c b = false → lt c a = false)
    (l : List α) :
    (stableSort lt l).Pairwise (fun a b => lt b a = false) := by
  induction l with
  | nil => simp [stableSort]
  | cons x xs ih => exact pairwise_insertSorted lt hasym hneg x _ ih

theorem vLt_asym (a b : VMatch) : vLt a b = true → vLt b a = false := by
  simp only [vLt, decide_eq_true_eq, decide_eq_false_iff_not]
  omega

theorem vLt_neg_trans (a b c : VMatch) :
    vLt b a = false → vLt c b = false → vLt c a = false := by
  simp only [vLt, decide_eq_false_iff_not]
  omega

-- =============================================================================
-- Facts about the validated pool
-- =============================================================================

theorem convert_utc_to_kst_empty : convert_utc_to_kst "" = none := rfl

theorem entry_of_fields (top_4 : List String) (leader : String) (sk : Option String)
    (se : String → String → String → Option String) (m : ApiMatch) (ti : TimeInfo)
    (v : VMatch) (h : entry_of top_4 leader sk se m ti = some v) :
    v.sel.rules = check_epl_rules m.homeName m.awayName ti.uk_day ti.uk_time top_4 leader ∧
    v.sel.rules ≠ [] ∧ v.sel.status = "SCHEDULED" ∧ v.sel.score = "-" ∧
    v.sel.match_id = m.id := by
  unfold entry_of at h
  by_cases hr : (check_epl_rules m.homeName m.awayName ti.uk_day ti.uk_time top_4 leader).isEmpty = true
  · simp [hr] at h
  · simp only [hr] at h
    simp only [Bool.false_eq_true, if_false] at h
    cases h
    refine ⟨rfl, ?_, rfl, rfl, rfl⟩
    intro h0
    rw [List.isEmpty_iff] at hr
    exact hr h0

theorem spec_pool_entry_facts (ms : List ApiMatch) (top_4 : List String) (leader : String)
    (sk : Option String) (se : String → String → String → Option String) (v : VMatch)
    (hv : v ∈ spec_selection_pool ms top_4 leader sk se) :
    v.sel.rules ≠ [] ∧ v.sel.status = "SCHEDULED" ∧ v.sel.score = "-" := by
  obtain ⟨m, _, he⟩ := List.mem_filterMap.mp hv
  cases hc : convert_utc_to_kst m.utcDate with
  | none => rw [hc] at he; simp at he
  | some ti =>
    rw [hc] at he
    simp only [Option.bind_some, Option.some_bind] at he
    have := entry_of_fields top_4 leader sk se m ti v he
    exact ⟨this.2.1, this.2.2.1, this.2.2.2.1⟩

/-- Under the spec's Fixture invariant (non-empty participant names, a
convertible kickoff timestamp) the loop's validity screening never fires,
and the accumulated pool is exactly the spec's step-1/step-2 pool. -/
theorem validated_matches_eq_spec_pool (ms : List ApiMatch) (top_4 : List String)
    (leader : String) (sk : Option String) (se : String → String → String → Option String)
    (hwf : ∀ m ∈ ms, m.homeName ≠ "" ∧ m.awayName ≠ "" ∧
      (convert_utc_to_kst m.utcDate).isSome = true) :
    validated_matches ms top_4 leader sk se = spec_selection_pool ms top_4 leader sk se := by
  induction ms with
  | nil => rfl
  | cons m t ih =>
    obtain ⟨hh, ha, hc⟩ := hwf m (List.mem_cons_self m t)
    obtain ⟨ti, hti⟩ := Option.isSome_iff_exists.mp hc
    have hud : m.utcDate ≠ "" := by
      intro h0
      rw [h0, convert_utc_to_kst_empty] at hti
      exact Option.noConfusion hti
    have ih' := ih (fun x hx => hwf x (List.mem_cons_of_mem m hx))
    simp only [validated_matches, spec_selection_pool] at ih' ⊢
    rw [List.filterMap_cons, List.filter_cons]
    by_cases hs : (m.status == "FINISHED") = true
    · have hb : build_entry top_4 leader sk se m = none := by
        simp [build_entry, hs]
      rw [hb]
      simp only [hs, Bool.not_true, Bool.false_eq_true, if_false]
      exact ih'
    · have hs' : (m.status == "FINISHED") = false := by
        cases h0 : (m.status == "FINISHED") with
        | true => exact absurd h0 hs
        | false => rfl
      have hb : build_entry top_4 leader sk se m = entry_of top_4 leader sk se m ti := by
        simp [build_entry, hs', hti, beq_eq_false_iff_ne.mpr hh, beq_eq_false_iff_ne.mpr ha,
          beq_eq_false_iff_ne.mpr hud]
      rw [hb]
      simp only [hs', Bool.not_false, if_true, List.filterMap_cons, hti, Option.some_bind]
      cases he : entry_of top_4 leader sk se m ti with
      | none => simpa [he] using ih'
      | some v => simpa [he] using ih'

-- =============================================================================
-- Claim C1: fresh selection = filter, rank, truncate
-- =============================================================================

/-- **C1.** For every candidate fixture list (whose fixtures carry the data
model's invariants: non-empty participant names and a convertible kickoff
timestamp), top-4 list and leader, the fresh selection (no previous batch)
returns exactly the fixtures whose status is not FINISHED and whose
matched-rule set is non-empty, sorted by (best matched tier ascending,
kickoff ascending) and truncated to the first `MAX_EPL_MATCHES = 3`; the
batch never exceeds 3 members and never contains a fixture matching no
tier. -/
theorem epl_fresh_selection_correct (ms : List ApiMatch) (top_4 : List String)
    (leader : String) (sk : Option String)
    (se : String → String → String → Option String)
    (hwf : ∀ m ∈ ms, m.homeName ≠ "" ∧ m.awayName ≠ "" ∧
      (convert_utc_to_kst m.utcDate).isSome = true) :
    (process_epl_matches ms top_4 leader sk se none).1 = spec_selection ms top_4 leader sk se ∧
    (process_epl_matches ms top_4 leader sk se none).1.length ≤ MAX_EPL_MATCHES ∧
    (∀ e ∈ (process_epl_matches ms top_4 leader sk se none).1, e.rules ≠ []) ∧
    (stableSort vLt (spec_selection_pool ms top_4 leader sk se)).Pairwise
      (fun a b => vLt b a = false) := by
  have hpool := validated_matches_eq_spec_pool ms top_4 leader sk se hwf
  have hproc : process_epl_matches ms top_4 leader sk se none =
      fresh_selection ms top_4 leader sk se := by
    simp [process_epl_matches]
  have hmain : (process_epl_matches ms top_4 leader sk se none).1 =
      spec_selection ms top_4 leader sk se := by
    rw [hproc]
    unfold fresh_selection spec_selection
    rw [hpool]
    by_cases hv : (spec_selection_pool ms top_4 leader sk se).isEmpty = true
    · rw [List.isEmpty_iff] at hv
      simp [hv, stableSort]
    · simp [hv]
  refine ⟨hmain, ?_, ?_, pairwise_stableSort vLt vLt_asym vLt_neg_trans _⟩
  · rw [hmain]
    unfold spec_selection
    rw [List.length_map, List.length_take]
    exact Nat.min_le_left _ _
  · intro e he
    rw [hmain] at he
    unfold spec_selection at he
    obtain ⟨v, hvmem, rfl⟩ := List.mem_map.mp he
    have hv1 : v ∈ stableSort vLt (spec_selection_pool ms top_4 leader sk se) :=
      List.take_subset _ _ hvmem
    have hv2 := (stableSort_perm vLt _).mem_iff.mp hv1
    exact (spec_pool_entry_facts ms top_4 leader sk se v hv2).1

/-- A concrete candidate list: one Big-6 derby, one finished match, one
match matching no tier. -/
def c1_matches : List ApiMatch :=
  [{ id := some 1, status := "TIMED", homeName := "Arsenal FC", awayName := "Chelsea FC",
     utcDate := "2026-01-17T15:00:00Z", matchday := 22, scoreHome := 0, scoreAway := 0 },
   { id := some 2, status := "FINISHED", homeName := "Liverpool FC", awayName := "Everton FC",
     utcDate := "2026-01-17T12:30:00Z", matchday := 22, scoreHome := 2, scoreAway := 0 },
   { id := some 3, status := "TIMED", homeName := "Fulham FC", awayName := "Brentford FC",
     utcDate := "2026-01-18T14:00:00Z", matchday := 22, scoreHome := 0, scoreAway := 0 }]

def c1_top4 : List String := ["Arsenal", "Manchester City", "Aston Villa", "Liverpool"]

theorem epl_fresh_selection_correct_witness :
    (∀ m ∈ c1_matches, m.homeName ≠ "" ∧ m.awayName ≠ "" ∧
      (convert_utc_to_kst m.utcDate).isSome = true) ∧
    ((process_epl_matches c1_matches c1_top4 "Arsenal" none (fun _ _ _ => none) none).1 =
      spec_selection c1_matches c1_top4 "Arsenal" none (fun _ _ _ => none) ∧
     (process_epl_matches c1_matches c1_top4 "Arsenal" none (fun _ _ _ => none) none).1.length ≤
       MAX_EPL_MATCHES ∧
     (∀ e ∈ (process_epl_matches c1_matches c1_top4 "Arsenal" none (fun _ _ _ => none) none).1,
       e.rules ≠ []) ∧
     (stableSort vLt
       (spec_selection_pool c1_matches c1_top4 "Arsenal" none (fun _ _ _ => none))).Pairwise
       (fun a b => vLt b a = false)) :=
  ⟨by decide, epl_fresh_selection_correct c1_matches c1_top4 "Arsenal" none
    (fun _ _ _ => none) (by decide)⟩

-- =============================================================================
-- Claim C3: Tier-3 exclusivity and minimum-tier sorting
-- =============================================================================

theorem minimum_map_tier (l : List String) :
    (l.map tier_of).min? = (if l = [] then none else some (get_best_tier l)) := by
  cases l with
  | nil => rfl
  | cons r rs => rfl

/-- **C3.** A fixture whose participants both belong to the elite group (as
the rule checker itself determines, via `is_big_6` of the normalized names)
is never tagged with the Tier-3 `Challenger` rule; and for every fixture,
`get_best_tier` — the tier the sort key uses — is the minimum of the tier
numbers of all matched rules. -/
theorem tier3_exclusive_and_best_tier_min (home away uk_day uk_time : String)
    (top_4 : List String) (leader : String) :
    (is_big_6 (normalize_team_name home) = true →
     is_big_6 (normalize_team_name away) = true →
     "Challenger" ∉ check_epl_rules home away uk_day uk_time top_4 leader) ∧
    ((check_epl_rules home away uk_day uk_time top_4 leader).map tier_of).min? =
      (if check_epl_rules home away uk_day uk_time top_4 leader = [] then none
       else some (get_best_tier (check_epl_rules home away uk_day uk_time top_4 leader))) := by
  constructor
  · intro h1 h2
    simp only [check_epl_rules, h1, h2]
    simp
  · exact minimum_map_tier _

theorem tier3_exclusive_and_best_tier_min_witness :
    (is_big_6 (normalize_team_name "Man City") = true) ∧
    (is_big_6 (normalize_team_name "Spurs") = true) ∧
    ("Challenger" ∉ check_epl_rules "Man City" "Spurs" "Monday" "20:00" ["Newcastle United"] "Arsenal") ∧
    ((check_epl_rules "Man City" "Spurs" "Monday" "20:00" ["Newcastle United"] "Arsenal").map
      tier_of).min? =
      (if check_epl_rules "Man City" "Spurs" "Monday" "20:00" ["Newcastle United"] "Arsenal" = []
       then none
       else some (get_best_tier
         (check_epl_rules "Man City" "Spurs" "Monday" "20:00" ["Newcastle United"] "Arsenal"))) :=
  ⟨by decide, by decide,
   (tier3_exclusive_and_best_tier_min "Man City" "Spurs" "Monday" "20:00"
     ["Newcastle United"] "Arsenal").1 (by decide) (by decide),
   (tier3_exclusive_and_best_tier_min "Man City" "Spurs" "Monday" "20:00"
     ["Newcastle United"] "Arsenal").2⟩

-- =============================================================================
-- Claim C2: carry-over stability
-- =============================================================================

/-- Equality of every field except `status` and `score`: the frame the
refresh pass must preserve. -/
def frame_eq (s o : SelMatch) : Prop :=
  o.match_id = s.match_id ∧ o.home = s.home ∧ o.away = s.away ∧ o.kst_time = s.kst_time ∧
  o.uk_time = s.uk_time ∧ o.local_tv = s.local_tv ∧ o.rules = s.rules ∧
  o.rule_str = s.rule_str ∧ o.matchday = s.matchday

theorem refresh_member_frame (ms : List ApiMatch) (m : SelMatch) :
    frame_eq m (refresh_member ms m) := by
  unfold refresh_member frame_eq
  cases find_current ms m.match_id <;> simp

theorem forall2_map_self (R : α → α → Prop) (f : α → α) :
    ∀ l : List α, (∀ x ∈ l, R x (f x)) → List.Forall₂ R l (l.map f) := by
  intro l
  induction l with
  | nil => intro _; exact List.Forall₂.nil
  | cons x xs ih =>
    intro h
    exact List.Forall₂.cons (h x (List.mem_cons_self x xs))
      (ih (fun y hy => h y (List.mem_cons_of_mem x hy)))

/-- **C2.** Given a previous batch with a usable member id and at least one
member whose refreshed lifecycle status is not FINISHED, re-running the
classifier keeps the batch: no new selection runs, the round is kept, the
`match_id` sequence is identical, and each member differs from its stored
version at most in `status` and `score`. -/
theorem carry_over_stability (ms : List ApiMatch) (top_4 : List String) (leader : String)
    (sk : Option String) (se : String → String → String → Option String) (prev : EplPrev)
    (hne : prev.selected_matches ≠ [])
    (hid : ∃ m ∈ prev.selected_matches, idTruthy m.match_id = true)
    (hlive : ∃ m ∈ prev.selected_matches, refreshed_status ms m ≠ "FINISHED") :
    (process_epl_matches ms top_4 leader sk se (some prev)).2.2 = false ∧
    (process_epl_matches ms top_4 leader sk se (some prev)).2.1 = prev.selected_round ∧
    (process_epl_matches ms top_4 leader sk se (some prev)).1.map (·.match_id) =
      prev.selected_matches.map (·.match_id) ∧
    List.Forall₂ frame_eq prev.selected_matches
      (process_epl_matches ms top_4 leader sk se (some prev)).1 := by
  have h1 : prev.selected_matches.isEmpty = false := by
    cases h : prev.selected_matches.isEmpty with
    | true => exact absurd (List.isEmpty_iff.mp h) hne
    | false => rfl
  have h2 : prev.selected_matches.any (fun m => idTruthy m.match_id) = true := by
    rw [List.any_eq_true]
    obtain ⟨m, hm, hmi⟩ := hid
    exact ⟨m, hm, hmi⟩
  have hfin : prev.selected_matches.all (member_finished ms) = false := by
    obtain ⟨m, hm, hs⟩ := hlive
    rw [List.all_eq_false]
    refine ⟨m, hm, ?_⟩
    have hb : member_finished ms m = (refreshed_status ms m == "FINISHED") := by
      unfold member_finished refreshed_status
      cases find_current ms m.match_id <;> rfl
    rw [hb]
    simp [hs]
  have hp : process_epl_matches ms top_4 leader sk se (some prev) =
      (prev.selected_matches.map (refresh_member ms), prev.selected_round, false) := by
    simp [process_epl_matches, h1, h2, hfin]
  rw [hp]
  refine ⟨rfl, rfl, ?_, ?_⟩
  · rw [List.map_map]
    apply List.map_congr_left
    intro m _
    exact (refresh_member_frame ms m).1
  · exact forall2_map_self frame_eq (refresh_member ms) prev.selected_matches
      (fun m _ => refresh_member_frame ms m)

/-- A previous batch with one finished and one in-play member. -/
def c2_prev : EplPrev :=
  { selected_matches :=
      [{ match_id := some 11, home := "Arsenal", away := "Chelsea",
         kst_time := "01.18 00:00 (KST)", uk_time := "Saturday 15:00 (UK)",
         local_tv := "Sky Sports", rules := ["Big Match"], rule_str := "Big Match",
         matchday := 22, status := "SCHEDULED", score := "-" },
       { match_id := some 12, home := "Liverpool", away := "Tottenham",
         kst_time := "01.19 01:30 (KST)", uk_time := "Sunday 16:30 (UK)",
         local_tv := "", rules := ["Big Match", "Prime Time"],
         rule_str := "Big Match, Prime Time",
         matchday := 22, status := "SCHEDULED", score := "-" }],
    selected_round := some 22 }

/-- Fresh data for the same two fixtures: the first now finished, the
second in play. -/
def c2_ms : List ApiMatch :=
  [{ id := some 11, status := "FINISHED", homeName := "Arsenal FC", awayName := "Chelsea FC",
     utcDate := "2026-01-17T15:00:00Z", matchday := 22, scoreHome := 2, scoreAway := 1 },
   { id := some 12, status := "IN_PLAY", homeName := "Liverpool FC",
     awayName := "Tottenham Hotspur FC", utcDate := "2026-01-18T16:30:00Z",
     matchday := 22, scoreHome := 1, scoreAway := 0 }]

theorem carry_over_stability_witness :
    (c2_prev.selected_matches ≠ []) ∧
    (∃ m ∈ c2_prev.selected_matches, idTruthy m.match_id = true) ∧
    (∃ m ∈ c2_prev.selected_matches, refreshed_status c2_ms m ≠ "FINISHED") ∧
    ((process_epl_matches c2_ms [] "" none (fun _ _ _ => none) (some c2_prev)).2.2 = false ∧
     (process_epl_matches c2_ms [] "" none (fun _ _ _ => none) (some c2_prev)).2.1 =
       c2_prev.selected_round ∧
     (process_epl_matches c2_ms [] "" none (fun _ _ _ => none) (some c2_prev)).1.map
       (·.match_id) = c2_prev.selected_matches.map (·.match_id) ∧
     List.Forall₂ frame_eq c2_prev.selected_matches
       (process_epl_matches c2_ms [] "" none (fun _ _ _ => none) (some c2_prev)).1) :=
  ⟨by decide, by decide, by decide,
   carry_over_stability c2_ms [] "" none (fun _ _ _ => none) c2_prev
     (by decide) (by decide) (by decide)⟩

-- =============================================================================
-- Claim C10: fresh selection publishes SCHEDULED with no score
-- =============================================================================

theorem validated_entry_facts (ms : List ApiMatch) (top_4 : List String) (leader : String)
    (sk : Option String) (se : String → String → String → Option String) (v : VMatch)
    (hv : v ∈ validated_matches ms top_4 leader sk se) :
    v.sel.rules ≠ [] ∧ v.sel.status = "SCHEDULED" ∧ v.sel.score = "-" := by
  obtain ⟨m, _, he⟩ := List.mem_filterMap.mp hv
  simp only [build_entry] at he
  split at he
  · exact absurd he (by simp)
  · split at he
    · exact absurd he (by simp)
    · split at he
      · exact absurd he (by simp)
      · have := entry_of_fields _ _ _ _ _ _ _ he
        exact ⟨this.2.1, this.2.2.1, this.2.2.2.1⟩

/-- **C10.** Every member of a freshly selected batch carries the literal
status `SCHEDULED` and the literal score `-`; and an in-play fixture
(IN_PLAY / PAUSED / LIVE) with well-formed fields and a non-empty rule set
is still eligible — it enters the validated pool, published as SCHEDULED
with no score. -/
theorem fresh_selection_publishes_scheduled (ms : List ApiMatch) (top_4 : List String)
    (leader : String) (sk : Option String)
    (se : String → String → String → Option String) :
    (∀ e ∈ (process_epl_matches ms top_4 leader sk se none).1,
      e.status = "SCHEDULED" ∧ e.score = "-") ∧
    (∀ m ∈ ms, (m.status = "IN_PLAY" ∨ m.status = "PAUSED" ∨ m.status = "LIVE") →
      m.homeName ≠ "" → m.awayName ≠ "" →
      ∀ ti, convert_utc_to_kst m.utcDate = some ti →
      check_epl_rules m.homeName m.awayName ti.uk_day ti.uk_time top_4 leader ≠ [] →
      ∃ v ∈ validated_matches ms top_4 leader sk se,
        v.sel.match_id = m.id ∧ v.sel.status = "SCHEDULED" ∧ v.sel.score = "-") := by
  constructor
  · intro e he
    have hproc : process_epl_matches ms top_4 leader sk se none =
        fresh_selection ms top_4 leader sk se := by
      simp [process_epl_matches]
    rw [hproc] at he
    unfold fresh_selection at he
    by_cases hv : (validated_matches ms top_4 leader sk se).isEmpty = true
    · rw [if_pos hv] at he
      simp at he
    · rw [if_neg hv] at he
      simp only at he
      obtain ⟨v, hvmem, rfl⟩ := List.mem_map.mp he
      have hfacts := validated_entry_facts ms top_4 leader sk se v
        ((stableSort_perm vLt _).mem_iff.mp (List.take_subset _ _ hvmem))
      exact ⟨hfacts.2.1, hfacts.2.2⟩
  · intro m hm hstat hh ha ti hti hr
    have hs' : (m.status == "FINISHED") = false := by
      rcases hstat with h | h | h <;> simp [h]
    have hud : m.utcDate ≠ "" := by
      intro h0
      rw [h0, convert_utc_to_kst_empty] at hti
      exact Option.noConfusion hti
    have hb : build_entry top_4 leader sk se m = entry_of top_4 leader sk se m ti := by
      simp [build_entry, hs', hti, beq_eq_false_iff_ne.mpr hh, beq_eq_false_iff_ne.mpr ha,
        beq_eq_false_iff_ne.mpr hud]
    have hre : (check_epl_rules m.homeName m.awayName ti.uk_day ti.uk_time top_4
        leader).isEmpty = false := by
      cases h0 : (check_epl_rules m.homeName m.awayName ti.uk_day ti.uk_time top_4
          leader).isEmpty with
      | true => exact absurd (List.isEmpty_iff.mp h0) hr
      | false => rfl
    have he : ∃ v, entry_of top_4 leader sk se m ti = some v := by
      simp only [entry_of, hre, Bool.false_eq_true, if_false]
      exact ⟨_, rfl⟩
    obtain ⟨v, he⟩ := he
    have hfacts := entry_of_fields top_4 leader sk se m ti v he
    exact ⟨v, List.mem_filterMap.mpr ⟨m, hm, hb.trans he⟩,
      hfacts.2.2.2.2, hfacts.2.2.1, hfacts.2.2.2.1⟩

/-- A single in-play Big-6 fixture. -/
def c10_m : ApiMatch :=
  { id := some 7, status := "IN_PLAY", homeName := "Arsenal FC", awayName := "Chelsea FC",
    utcDate := "2026-01-17T15:00:00Z", matchday := 22, scoreHome := 1, scoreAway := 0 }

def c10_ms : List ApiMatch := [c10_m]

theorem fresh_selection_publishes_scheduled_witness :
    (∀ e ∈ (process_epl_matches c10_ms c1_top4 "Arsenal" none (fun _ _ _ => none) none).1,
      e.status = "SCHEDULED" ∧ e.score = "-") ∧
    (∃ v ∈ validated_matches c10_ms c1_top4 "Arsenal" none (fun _ _ _ => none),
      v.sel.match_id = c10_m.id ∧ v.sel.status = "SCHEDULED" ∧ v.sel.score = "-") := by
  refine ⟨(fresh_selection_publishes_scheduled c10_ms c1_top4 "Arsenal" none
    (fun _ _ _ => none)).1, ?_⟩
  exact (fresh_selection_publishes_scheduled c10_ms c1_top4 "Arsenal" none
      (fun _ _ _ => none)).2
    c10_m (by decide) (Or.inl (by decide)) (by decide) (by decide)
    ((convert_utc_to_kst c10_m.utcDate).get (by decide)) (by decide) (by decide)

-- =============================================================================
-- Claim C4: behaviour when fresh selection finds nothing
-- =============================================================================

/-- Round 10: one unfinished fixture matching no tier. -/
def c4_dull : ApiMatch :=
  { id := some 101, status := "TIMED", homeName := "Alpha Town", awayName := "Beta Rovers",
    utcDate := "2026-01-13T20:00:00Z", matchday := 10, scoreHome := 0, scoreAway := 0 }

/-- Round 11: a Big-6 derby that would qualify. -/
def c4_big : ApiMatch :=
  { id := some 202, status := "TIMED", homeName := "Arsenal FC", awayName := "Chelsea FC",
    utcDate := "2026-01-20T20:00:00Z", matchday := 11, scoreHome := 0, scoreAway := 0 }

def c4_fetchMd : Nat → List ApiMatch := fun d =>
  if d = 10 then [c4_dull] else if d = 11 then [c4_big] else []

def c4_top4 : List String := ["Newcastle United", "Aston Villa", "Brighton", "Bournemouth"]

def c4_run : RunIn :=
  { football_key := some "fk", serper_key := none, balldontlie_key := none,
    now_str := "2026-01-13 09:00:00 KST",
    standings := some { leader := "Newcastle United", top4 := c4_top4, matchday := 10 },
    fetchMd := c4_fetchMd, fetchWin := [],
    search := fun _ _ _ => none,
    nbaApi := get_nba_default_data, f1Api := f1_no_serper_fallback,
    tennisApi := tennis_default_data, existing := none }

/-- **C4 counterexample.**  With the current round (R10) fetching one
unfinished fixture that matches no tier, and the next round (R11) holding a
fixture that would qualify, the run still publishes an *empty* batch: no
next-round retry exists in this revision (v2.2 deliberately removed it). -/
theorem no_next_round_retry_counterexample :
    (process_epl_matches (get_epl_matches (some 11) c4_fetchMd []) c4_top4
      "Newcastle United" none (fun _ _ _ => none) none).1 ≠ [] ∧
    (update_sports_data c4_run).map (fun j => json_get2 j "epl" "selected_matches") =
      .ok (some (.arr [])) := by
  exact ⟨by decide, rfl⟩

/-- **C4 amended.**  The only pool-widening in this revision sits in
`get_epl_matches`: when the current-round query produces nothing, the
7-day-window query is used instead.  When fresh selection itself finds zero
qualifying fixtures, `process_epl_matches` returns the empty batch at once,
with no retry against another round. -/
theorem empty_selection_no_retry :
    (∀ (md : Option Nat) (fetchMd : Nat → List ApiMatch) (fetchWin : List ApiMatch),
      matchday_fetch md fetchMd = [] →
      get_epl_matches md fetchMd fetchWin = dedup_by_id fetchWin) ∧
    (∀ (ms : List ApiMatch) (top_4 : List String) (leader : String) (sk : Option String)
      (se : String → String → String → Option String),
      validated_matches ms top_4 leader sk se = [] →
      process_epl_matches ms top_4 leader sk se none = ([], none, true)) := by
  constructor
  · intro md f w h
    unfold get_epl_matches
    rw [h]
    simp
  · intro ms t4 l sk se h
    have hproc : process_epl_matches ms t4 l sk se none = fresh_selection ms t4 l sk se := by
      simp [process_epl_matches]
    rw [hproc]
    unfold fresh_selection
    simp [h]

theorem empty_selection_no_retry_witness :
    (matchday_fetch none (fun _ => []) = [] ∧
     get_epl_matches none (fun _ => []) [] = dedup_by_id []) ∧
    (validated_matches [] [] "" none (fun _ _ _ => none) = [] ∧
     process_epl_matches [] [] "" none (fun _ _ _ => none) none = ([], none, true)) :=
  ⟨⟨rfl, empty_selection_no_retry.1 none (fun _ => []) [] rfl⟩,
   ⟨rfl, empty_selection_no_retry.2 [] [] "" none (fun _ _ _ => none) rfl⟩⟩

-- =============================================================================
-- Claim C5: what a Serper rate-limit actually does to the run
-- =============================================================================

/-- A run holding a truthy Serper key whose every Serper call failed (the
transport seeing e.g. HTTP 429 leaves exactly this behind). -/
def c5_run : RunIn :=
  { football_key := some "fk", serper_key := some "sk", balldontlie_key := none,
    now_str := "2026-01-25 09:00:00 KST",
    standings := none,
    fetchMd := fun _ => [], fetchWin := [],
    search := fun _ _ _ => none,
    nbaApi := get_nba_default_data, f1Api := f1_no_serper_fallback,
    tennisApi := tennis_default_data, existing := none }

/-- **C5 counterexample.**  A 429 (rate-limit) response is swallowed by
`call_serper_api` into the very same `None` any other failure produces —
no recognizable signature survives — and the run completes and writes its
snapshot anyway: nothing aborts. -/
theorem rate_limit_abort_counterexample :
    call_serper_api (some "key") (HttpOutcome.ok 429 ()) = none ∧
    call_serper_api (some "key") (HttpOutcome.ok 429 ()) =
      call_serper_api (some "key") (HttpOutcome.exn (α := Unit)) ∧
    (∃ j, update_sports_data c5_run = Except.ok j) :=
  ⟨rfl, rfl, ⟨_, rfl⟩⟩

/-- **C5 amended.**  Rate-limit exhaustion gets no special handling: every
non-200 Serper response yields `None` (source-unavailable) and only
degrades the affected fields; whenever the football key is present the run
reaches the write step, and the only abort-without-write is the missing
football key. -/
theorem serper_failure_never_aborts (I : RunIn)
    (h : strTruthy I.football_key = true) :
    (∃ j, update_sports_data I = Except.ok j) ∧
    (∀ (key : Option String) (st : Nat) (b : Unit), st ≠ 200 →
      call_serper_api key (HttpOutcome.ok st b) = none) ∧
    (∀ J : RunIn, strTruthy J.football_key = false →
      update_sports_data J = Except.error "FOOTBALL_DATA_API_KEY Missing") := by
  refine ⟨?_, ?_, ?_⟩
  · unfold update_sports_data
    rw [h]
    exact ⟨_, rfl⟩
  · intro key st b hst
    unfold call_serper_api
    by_cases hk : strTruthy key = true
    · rw [hk]
      simp only [Bool.not_true, Bool.false_eq_true, if_false]
    · have hk' : strTruthy key = false := by
        cases h0 : strTruthy key with
        | true => exact absurd h0 hk
        | false => rfl
      rw [hk']
      rfl
  · intro J hJ
    unfold update_sports_data
    rw [hJ]
    rfl

theorem serper_failure_never_aborts_witness :
    strTruthy c5_run.football_key = true ∧
    ((∃ j, update_sports_data c5_run = Except.ok j) ∧
     (∀ (key : Option String) (st : Nat) (b : Unit), st ≠ 200 →
       call_serper_api key (HttpOutcome.ok st b) = none) ∧
     (∀ J : RunIn, strTruthy J.football_key = false →
       update_sports_data J = Except.error "FOOTBALL_DATA_API_KEY Missing")) :=
  ⟨by decide, serper_failure_never_aborts c5_run (by decide)⟩

-- =============================================================================
-- Claim C6: standings source unavailable
-- =============================================================================

/-- **C6.**  When the standings source yields nothing, the run does not
abort: the classifier runs against the fixed fallback leader `Arsenal` and
the fixed fallback top-4 seed set, the hardcoded `BIG_6` elite group keeps
working independently of any standings input (a Big-6 derby still matches
the Tier-1 rule under arbitrary top-4/leader inputs), and a complete
snapshot is still written with those fallbacks inside. -/
theorem standings_fallback_run (I : RunIn)
    (hkey : strTruthy I.football_key = true)
    (hst : I.standings = none) :
    ∃ j, update_sports_data I = Except.ok j ∧
      json_get2 j "epl" "leader" = some (.str "Arsenal") ∧
      json_get2 j "epl" "top4" = some (.arr (fallback_top4.map .str)) ∧
      json_get2 j "epl" "selected_matches" = some (.arr
        (((process_epl_matches (get_epl_matches none I.fetchMd I.fetchWin) fallback_top4
          "Arsenal" I.serper_key I.search I.existing).1).map selToJson)) ∧
      (∀ uk_day uk_time (top_4 : List String) (leader : String),
        "Big Match" ∈ check_epl_rules "Arsenal" "Chelsea" uk_day uk_time top_4 leader) := by
  have hA : is_big_6 (normalize_team_name "Arsenal") = true := by decide
  have hC : is_big_6 (normalize_team_name "Chelsea") = true := by decide
  unfold update_sports_data
  rw [hkey, hst]
  refine ⟨_, rfl, rfl, rfl, rfl, ?_⟩
  intro d t t4 l
  simp [check_epl_rules, hA, hC]

def c6_run : RunIn :=
  { football_key := some "fk", serper_key := none, balldontlie_key := none,
    now_str := "2026-01-25 09:00:00 KST",
    standings := none,
    fetchMd := fun _ => [], fetchWin := [],
    search := fun _ _ _ => none,
    nbaApi := get_nba_default_data, f1Api := f1_no_serper_fallback,
    tennisApi := tennis_default_data, existing := none }

theorem standings_fallback_run_witness :
    strTruthy c6_run.football_key = true ∧ c6_run.standings = none ∧
    (∃ j, update_sports_data c6_run = Except.ok j ∧
      json_get2 j "epl" "leader" = some (.str "Arsenal") ∧
      json_get2 j "epl" "top4" = some (.arr (fallback_top4.map .str)) ∧
      json_get2 j "epl" "selected_matches" = some (.arr
        (((process_epl_matches (get_epl_matches none c6_run.fetchMd c6_run.fetchWin)
          fallback_top4 "Arsenal" c6_run.serper_key c6_run.search c6_run.existing).1).map
          selToJson)) ∧
      (∀ uk_day uk_time (top_4 : List String) (leader : String),
        "Big Match" ∈ check_epl_rules "Arsenal" "Chelsea" uk_day uk_time top_4 leader)) :=
  ⟨by decide, rfl, standings_fallback_run c6_run (by decide) rfl⟩

-- =============================================================================
-- Claim C7: normalization idempotence
-- =============================================================================

/-- **C7 counterexample.**  Normalization is not idempotent: the
suffix-stripping branch can manufacture an alias key.  `"Sp FCurs"`
normalizes to `"Spurs"` (no alias matches, `" FC"` is deleted), but a
second pass maps `"Spurs"` to `"Tottenham"`. -/
theorem normalize_not_idempotent_counterexample :
    normalize_team_name (normalize_team_name "Sp FCurs") ≠
      normalize_team_name "Sp FCurs" := by decide

/-- **C7 amended.**  `normalize_team_name` is a total function (the Lean
model needs no partiality); each of the six canonical names is a fixed
point, and normalization is idempotent on every input whose normal form is
canonical — in particular whenever an alias (exact or substring) matched.
Idempotence can fail only for suffix-stripped outputs, as the
counterexample shows. -/
theorem normalize_idempotent_on_canonical :
    (∀ b6 ∈ BIG_6, normalize_team_name b6 = b6) ∧
    (∀ x : String, normalize_team_name x ∈ BIG_6 →
      normalize_team_name (normalize_team_name x) = normalize_team_name x) := by
  have hfix : ∀ b6 ∈ BIG_6, normalize_team_name b6 = b6 := by decide
  refine ⟨hfix, ?_⟩
  intro x hx
  rw [hfix _ hx]

theorem normalize_idempotent_on_canonical_witness :
    normalize_team_name "Man City" ∈ BIG_6 ∧
    normalize_team_name (normalize_team_name "Man City") =
      normalize_team_name "Man City" :=
  ⟨by decide, normalize_idempotent_on_canonical.2 "Man City" (by decide)⟩

-- =============================================================================
-- Claim C9: unparseable timestamps
-- =============================================================================

/-- **C9 counterexample.**  On an unparseable input the converter does not
hand back the original strings with a degraded display value: it returns
the bare `None` sentinel, carrying nothing. -/
theorem convert_unparseable_counterexample :
    convert_utc_to_kst "kickoff at noon" = none := by decide

/-- **C9 amended.**  The converter is total — the bare `except` turns every
parse failure into `None`, never an exception — and its caller in the
selection loop skips a fixture whose timestamp did not convert. -/
theorem convert_none_skips_fixture (m : ApiMatch) (top_4 : List String) (leader : String)
    (sk : Option String) (se : String → String → String → Option String)
    (h : convert_utc_to_kst m.utcDate = none) :
    build_entry top_4 leader sk se m = none := by
  unfold build_entry
  split
  · rfl
  · split
    · rfl
    · rw [h]

def c9_m : ApiMatch :=
  { id := none, status := "TIMED", homeName := "Alpha Town", awayName := "Beta Rovers",
    utcDate := "tomorrow evening", matchday := 1, scoreHome := 0, scoreAway := 0 }

theorem convert_none_skips_fixture_witness :
    convert_utc_to_kst c9_m.utcDate = none ∧
    build_entry [] "" none (fun _ _ _ => none) c9_m = none :=
  ⟨by decide, convert_none_skips_fixture c9_m [] "" none (fun _ _ _ => none) (by decide)⟩

-- =============================================================================
-- Claim C8: the written document always carries every documented key
-- =============================================================================

/-- **C8.**  Every run that reaches the write step (football key present)
writes a document with every documented top-level key and every documented
nested key, whatever the optional sources returned: the EPL section and
each selected-match entry carry their full key sets, as do the NBA, F1 and
tennis sections; and when an optional source is unavailable its section is
the source-defined default whose fields are the placeholder values
(`"-"`, `""`, `"TBD"`, empty list) rather than absent keys. -/
theorem snapshot_complete_keys (I : RunIn) (h : strTruthy I.football_key = true) :
    ∃ j, update_sports_data I = Except.ok j ∧
      objKeys j = ["updated", "epl", "nba", "f1", "tennis"] ∧
      json_get j "updated" = some (.str I.now_str) ∧
      (∃ e, json_get j "epl" = some e ∧
        objKeys e = ["matchday", "selected_round", "display_matchday", "leader", "top4",
          "matches", "selected_matches"] ∧
        (∃ xs, json_get e "selected_matches" = some (.arr xs) ∧
          ∀ x ∈ xs, objKeys x = ["match_id", "home", "away", "kst_time", "uk_time", "local",
            "rules", "rule_str", "matchday", "status", "score"])) ∧
      (∃ n, json_get j "nba" = some n ∧
        objKeys n = ["record", "rank", "last", "schedule"] ∧
        (json_get n "last").map objKeys = some ["opp", "result", "score"]) ∧
      (∃ f, json_get j "f1" = some f ∧ objKeys f = ["status", "name", "circuit", "date"]) ∧
      (∃ t, json_get j "tennis" = some t ∧
        (json_get t "recent").map objKeys =
          some ["event", "opponent", "result", "score", "date"] ∧
        (json_get t "next").map objKeys =
          some ["event", "detail", "match_time", "tournament_dates", "status"]) ∧
      (strTruthy I.balldontlie_key = false →
        json_get j "nba" = some (nbaJson get_nba_default_data) ∧
        get_nba_default_data.record = "-" ∧ get_nba_default_data.rank = "-" ∧
        get_nba_default_data.last = ⟨"-", "-", "-"⟩ ∧
        get_nba_default_data.schedule = []) ∧
      (strTruthy I.serper_key = false →
        json_get j "tennis" = some (tennisJson tennis_default_data) ∧
        json_get j "f1" = some (f1Json f1_no_serper_fallback) ∧
        tennis_default_data.recent.event = "-" ∧
        tennis_default_data.next.match_time = "TBD" ∧
        tennis_default_data.next.tournament_dates = "") := by
  unfold update_sports_data
  rw [h]
  refine ⟨_, rfl, rfl, rfl, ⟨_, rfl, rfl, ⟨_, rfl, ?_⟩⟩, ⟨_, rfl, rfl, rfl⟩,
    ⟨_, rfl, rfl⟩, ⟨_, rfl, rfl, rfl⟩, ?_, ?_⟩
  · intro x hx
    obtain ⟨m, _, rfl⟩ := List.mem_map.mp hx
    rfl
  · intro hb
    refine ⟨?_, rfl, rfl, rfl, rfl⟩
    simp [json_get, assemble, hb]
  · intro hs
    refine ⟨?_, ?_, rfl, rfl, rfl⟩
    · simp [json_get, assemble, hs]
    · simp [json_get, assemble, hs]

/-- A fully degraded run: no optional key, no standings, no fixtures. -/
def c8_run : RunIn :=
  { football_key := some "fk", serper_key := none, balldontlie_key := none,
    now_str := "2026-01-25 09:00:00 KST",
    standings := none,
    fetchMd := fun _ => [], fetchWin := [],
    search := fun _ _ _ => none,
    nbaApi := get_nba_default_data, f1Api := f1_no_serper_fallback,
    tennisApi := tennis_default_data, existing := none }

theorem snapshot_complete_keys_witness :
    strTruthy c8_run.football_key = true ∧
    (∃ j, update_sports_data c8_run = Except.ok j ∧
      objKeys j = ["updated", "epl", "nba", "f1", "tennis"] ∧
      json_get j "updated" = some (.str c8_run.now_str) ∧
      (∃ e, json_get j "epl" = some e ∧
        objKeys e = ["matchday", "selected_round", "display_matchday", "leader", "top4",
          "matches", "selected_matches"] ∧
        (∃ xs, json_get e "selected_matches" = some (.arr xs) ∧
          ∀ x ∈ xs, objKeys x = ["match_id", "home", "away", "kst_time", "uk_time", "local",
            "rules", "rule_str", "matchday", "status", "score"])) ∧
      (∃ n, json_get j "nba" = some n ∧
        objKeys n = ["record", "rank", "last", "schedule"] ∧
        (json_get n "last").map objKeys = some ["opp", "result", "score"]) ∧
      (∃ f, json_get j "f1" = some f ∧ objKeys f = ["status", "name", "circuit", "date"]) ∧
      (∃ t, json_get j "tennis" = some t ∧
        (json_get t "recent").map objKeys =
          some ["event", "opponent", "result", "score", "date"] ∧
        (json_get t "next").map objKeys =
          some ["event", "detail", "match_time", "tournament_dates", "status"]) ∧
      (strTruthy c8_run.balldontlie_key = false →
        json_get j "nba" = some (nbaJson get_nba_default_data) ∧
        get_nba_default_data.record = "-" ∧ get_nba_default_data.rank = "-" ∧
        get_nba_default_data.last = ⟨"-", "-", "-"⟩ ∧
        get_nba_default_data.schedule = []) ∧
      (strTruthy c8_run.serper_key = false →
        json_get j "tennis" = some (tennisJson tennis_default_data) ∧
        json_get j "f1" = some (f1Json f1_no_serper_fallback) ∧
        tennis_default_data.recent.event = "-" ∧
        tennis_default_data.next.match_time = "TBD" ∧
        tennis_default_data.next.tournament_dates = "")) :=
  ⟨by decide, snapshot_complete_keys c8_run (by decide)⟩
